import Mathlib

/-!
Verification development for BerylliumSwallow (src/client_curses.py): a shallow
embedding of the schema-driven tabular rendering engine, buffer state machine
and modal input loop, with theorems settling the specification claims.

Conventions of the embedding:
  - Python values that flow through rows and cells are modelled by PyVal
    (None, strings, machine ints); nested mappings by the cons-cell type Row.
  - Fallible Python code (KeyError, TypeError, AttributeError, ValueError,
    IndexError) is modelled with Except PyErr.
  - The Python operator "a or b" (first truthy wins) is modelled by the pyOr
    functions; 0 and the empty string are falsy, as in Python.
  - Timestamps are microseconds since the epoch (naive datetimes, as in the
    source, under a monotonic clock); timedelta.seconds is the whole-second
    component of the difference, reduced modulo one day, as in Python.
  - Character predicates (isalpha, isnumeric, lower, upper) are used on ASCII
    data only, where Lean Char.isAlpha / Char.isDigit / toLower / toUpper
    agree with Python.
-/

/-- Python exception kinds raised by the code paths modelled here. -/
inductive PyErr where
  | keyError
  | typeError
  | attributeError
  | valueError
  | indexError
  deriving DecidableEq

/-- Scalar Python values stored at leaf positions of a row. -/
inductive PyVal where
  | none
  | str (s : String)
  | int (n : Int)
  deriving DecidableEq

/-- Python truthiness of a scalar: None, the empty string and 0 are falsy. -/
def PyVal.truthy : PyVal → Bool
  | .none => false
  | .str s => s ≠ ""
  | .int n => n ≠ 0

/-- Python str() of a scalar value (str(None) is the text None). -/
def PyVal.toStr : PyVal → String
  | .none => "None"
  | .str s => s
  | .int n => toString n

/-- Nested row data: a scalar value or an ordered mapping, written as cons
cells so that every operation is structurally recursive. -/
inductive Row where
  | val (v : PyVal)
  | objNil
  | objCons (key : String) (value : Row) (rest : Row)
  deriving DecidableEq

/-- Builds an object row from an association list. -/
def objOf (fields : List (String × Row)) : Row :=
  fields.foldr (fun kv r => .objCons kv.1 kv.2 r) .objNil

/-- Python truthiness of a row subtree (empty mapping is falsy). -/
def Row.truthy : Row → Bool
  | .val v => v.truthy
  | .objNil => false
  | .objCons _ _ _ => true

/-- Python subscription row[key]: KeyError on a missing key, TypeError when
subscripting a scalar (None, str and int are not mappings here). -/
def Row.getKey : Row → String → Except PyErr Row
  | .val _, _ => .error .typeError
  | .objNil, _ => .error .keyError
  | .objCons k v rest, key => if k = key then .ok v else rest.getKey key

/-- An apostrophe character as a string, for repr output. -/
def quoteStr : String := String.singleton (Char.ofNat 39)

/-- Python repr of a scalar (strings are quoted). -/
def PyVal.toRepr : PyVal → String
  | .none => "None"
  | .str s => quoteStr ++ s ++ quoteStr
  | .int n => toString n

mutual
/-- Python repr of a row subtree (OrderedDict repr for mappings). -/
def Row.toRepr : Row → String
  | .val v => v.toRepr
  | .objNil => "OrderedDict()"
  | .objCons k v rest =>
      "OrderedDict([(" ++ quoteStr ++ k ++ quoteStr ++ ", " ++ v.toRepr ++ ")" ++ rest.reprRest ++ "])"

/-- Remaining key-value pairs of an OrderedDict repr. -/
def Row.reprRest : Row → String
  | .val _ => ""
  | .objNil => ""
  | .objCons k v rest =>
      ", (" ++ quoteStr ++ k ++ quoteStr ++ ", " ++ v.toRepr ++ ")" ++ rest.reprRest
end

/-- Python str() applied to a cell subtree: scalars print plainly, a mapping
prints via its repr (never produced by the views in the source). -/
def Row.toPyStr : Row → String
  | .val v => v.toStr
  | r => r.toRepr

/-- Python equality (==) restricted to the value shapes rows can hold. -/
def rowPyEq : Row → Row → Bool
  | .val a, .val b => a = b
  | .objNil, .objNil => true
  | .objCons k v r, .objCons k2 v2 r2 => k = k2 && rowPyEq v v2 && rowPyEq r r2
  | _, _ => false

/-- Tests whether the first character list starts the second. -/
def listStarts : List Char → List Char → Bool
  | [], _ => true
  | _ :: _, [] => false
  | a :: as, b :: bs => a = b && listStarts as bs

/-- Tests whether the first character list occurs contiguously in the second. -/
def listHas (n : List Char) : List Char → Bool
  | [] => listStarts n []
  | c :: hs => listStarts n (c :: hs) || listHas n hs

/-- Python membership test a in b on strings: substring containment (the empty
string is contained in every string). -/
def pyInStr (needle hay : String) : Bool := listHas needle.data hay.data

/-- A run of n spaces. -/
def spaces (n : Nat) : String := String.mk (List.replicate n ' ')

/-- Python str.ljust: pad with trailing spaces to width w, never truncating. -/
def pyLjust (s : String) (w : Nat) : String := s ++ spaces (w - s.length)

/-- Python str.rjust: pad with leading spaces to width w, never truncating. -/
def pyRjust (s : String) (w : Nat) : String := spaces (w - s.length) ++ s

/-- Python str.center with the CPython margin split
left = marg / 2 + (marg AND width AND 1). -/
def pyCenter (s : String) (w : Nat) : String :=
  let marg := w - s.length
  let left := marg / 2 + ((marg &&& w) &&& 1)
  spaces left ++ s ++ spaces (marg - left)

/-- The platform justifier (client_curses.py lines 22-36): demands width 3
(ValueError otherwise), centers empty and single-character values, right
justifies a numeric-led letter-ended code, left justifies everything else. -/
def platform_justify (s : String) (length : Nat) : Except PyErr String :=
  if length ≠ 3 then .error .valueError
  else if s = "" then .ok ("   ")
  else if s.length = 1 then .ok (" " ++ s ++ " ")
  else if s.back.isAlpha && s.front.isDigit then .ok (pyRjust s 3)
  else .ok (pyLjust s 3)

/-- Python str.split with a one-character separator: splits at every
occurrence, keeping empty fields (the empty string splits to one empty
field). -/
def pySplitAux (sep : Char) : List Char → List Char → List String
  | [], acc => [String.mk acc.reverse]
  | c :: cs, acc =>
    if c = sep then String.mk acc.reverse :: pySplitAux sep cs []
    else pySplitAux sep cs (c :: acc)

/-- Python str.split with a one-character separator. -/
def pySplit (sep : Char) (s : String) : List String := pySplitAux sep s.data []

/-- Python str.lower on ASCII data. -/
def pyLower (s : String) : String := String.mk (s.data.map Char.toLower)

/-- Python str.upper on ASCII data. -/
def pyUpper (s : String) : String := String.mk (s.data.map Char.toUpper)

/-- Python str.startswith. -/
def pyStartsWith (s pre : String) : Bool := listStarts pre.data s.data

/-- Justify slot values: the three Python string methods plus the domain
platform justifier; a schema slot may also leave the justify unset. -/
inductive Justify where
  | ljust
  | rjust
  | center
  | platform
  deriving DecidableEq

/-- The four formatting attribute slots of a schema tuple (display name,
width, justify, colour); a missing or None tuple entry is modelled as an
unset option, exactly as renew normalises tuples by padding with None. -/
structure Attrs where
  name : Option String := Option.none
  width : Option Nat := Option.none
  justify : Option Justify := Option.none
  color : Option Nat := Option.none
  deriving DecidableEq

/-- A schema tree: a leaf descriptor tuple, or a mapping from segment names to
children together with the reserved inherited-defaults tuple (the underscore
key; a node without that key carries the all-unset Attrs, equivalent after the
normalisation renew applies by padding with None). -/
inductive Schema where
  | leaf (attrs : Attrs)
  | node (defaults : Attrs) (children : List (String × Schema))

/-- Python a or b on an optional string slot (the empty string is falsy). -/
def pyOrStr (a b : Option String) : Option String :=
  match a with
  | some s => if s = "" then b else some s
  | Option.none => b

/-- Python a or b on an optional numeric slot (0 is falsy). -/
def pyOrNat (a b : Option Nat) : Option Nat :=
  match a with
  | some n => if n = 0 then b else some n
  | Option.none => b

/-- Python a or b on an optional justify slot (function values are truthy). -/
def pyOrJ (a b : Option Justify) : Option Justify :=
  match a with
  | some j => some j
  | Option.none => b

/-- One step of inherited-defaults accumulation (client_curses.py lines 65 and
84): for each slot keep the already-accumulated value when truthy, else take
this node's declared default. -/
def mergeDefaults (acc defs : Attrs) : Attrs :=
  { name := pyOrStr acc.name defs.name
    width := pyOrNat acc.width defs.width
    justify := pyOrJ acc.justify defs.justify
    color := pyOrNat acc.color defs.color }

/-- Lookup of a child schema node by segment name. -/
def schemaChild (children : List (String × Schema)) (key : String) : Option Schema :=
  match children.find? (fun kv => kv.1 == key) with
  | some kv => some kv.2
  | Option.none => Option.none

/-- Walk of the header resolution loop (lines 61-66): at each node read its
inherited-defaults tuple and accumulate, then descend. Reading defaults of a
leaf tuple raises AttributeError (tuples have no get method); a missing
segment raises KeyError. -/
def walkHeader : List String → Schema → Attrs → Except PyErr (Attrs × Schema)
  | [], sch, acc => .ok (acc, sch)
  | seg :: rest, sch, acc =>
    match sch with
    | .leaf _ => .error .attributeError
    | .node defs children =>
      match schemaChild children seg with
      | Option.none => .error .keyError
      | some child => walkHeader rest child (mergeDefaults acc defs)

/-- Walk of the body resolution loop (lines 83-86): same accumulation, but the
row is subscripted before the schema at each segment, as in the source. -/
def walkBody : List String → Schema → Row → Attrs → Except PyErr (Attrs × Schema × Row)
  | [], sch, cell, acc => .ok (acc, sch, cell)
  | seg :: rest, sch, cell, acc =>
    match sch with
    | .leaf _ => .error .attributeError
    | .node defs children =>
      match cell.getKey seg with
      | .error e => .error e
      | .ok cell2 =>
        match schemaChild children seg with
        | Option.none => .error .keyError
        | some child => walkBody rest child cell2 (mergeDefaults acc defs)

/-- Header cell computation (lines 61-74): resolve name and width with the
leaf taking precedence over accumulated defaults, truncate the name to the
width and center it; the colour is computed but the source appends colour 0.
An unset name raises TypeError (None sliced); an unset width raises TypeError
(center applied to None). -/
def headerCell (sch : Schema) (column : String) : Except PyErr (String × Nat) :=
  match walkHeader (pySplit '/' column) sch {} with
  | .error e => .error e
  | .ok (_, .node _ _) => .error .keyError
  | .ok (acc, .leaf a) =>
    match pyOrStr a.name acc.name with
    | Option.none => .error .typeError
    | some nm =>
      match pyOrNat a.width acc.width with
      | Option.none => .error .typeError
      | some w => .ok (pyCenter (nm.take w) w, 0)

/-- Resolution result for one body cell before formatting. -/
structure Resolved where
  width : Option Nat
  justify : Option Justify
  color : Nat
  cell : Row
  deriving DecidableEq

/-- Body-cell attribute resolution (lines 80-94): walk the display path
through schema and row, then combine the leaf tuple with the accumulated
inherited defaults, each slot by Python or, colour defaulting to 0. -/
def resolve_cell (sch : Schema) (row : Row) (column : String) : Except PyErr Resolved :=
  match walkBody (pySplit '/' column) sch row {} with
  | .error e => .error e
  | .ok (_, .node _ _, _) => .error .keyError
  | .ok (acc, .leaf a, cell) =>
    .ok { width := pyOrNat a.width acc.width
          justify := pyOrJ a.justify acc.justify
          color := (pyOrNat a.color acc.color).getD 0
          cell := cell }

/-- Application of the resolved justify function (line 100): the three string
methods demand a string and an integer width (TypeError otherwise); the
platform justifier first demands width exactly 3 (ValueError, also when the
width is unset), then follows its own truthiness branches, so a falsy
non-string still centers to three spaces, a truthy int fails at len, and a
mapping of size one formats while a larger one raises KeyError at index -1. -/
def justifyRow (j : Justify) (t : Row) (w : Option Nat) : Except PyErr String :=
  match j with
  | .ljust =>
    match t, w with
    | .val (.str s), some n => .ok (pyLjust s n)
    | _, _ => .error .typeError
  | .rjust =>
    match t, w with
    | .val (.str s), some n => .ok (pyRjust s n)
    | _, _ => .error .typeError
  | .center =>
    match t, w with
    | .val (.str s), some n => .ok (pyCenter s n)
    | _, _ => .error .typeError
  | .platform =>
    if w ≠ some 3 then .error .valueError
    else
      match t with
      | .val (.str s) => platform_justify s 3
      | .val .none => .ok ("   ")
      | .val (.int n) => if n = 0 then .ok ("   ") else .error .typeError
      | .objNil => .ok ("   ")
      | .objCons k v .objNil => .ok (" " ++ Row.toPyStr (.objCons k v .objNil) ++ " ")
      | .objCons _ _ _ => .error .keyError

/-- Per-view override hook: receives the row, the display path and the default
(text, colour) pair, and returns the pair to use (client_curses.py line 53). -/
abbrev SubFn := Row → String → Row × Nat → Except PyErr (Row × Nat)

/-- Base Buffer substitute_fn (lines 53-54): the identity hook. -/
def substitute_default : SubFn := fun _ _ z => .ok z

/-- One formatted body cell of renew (lines 79-102): resolve the path, hand
str(cell) and the resolved colour to the override hook, blank the text when
the raw cell is None (after the hook), then justify to the resolved width
with ljust as the fallback justifier. -/
def bodyCell (sub : SubFn) (sch : Schema) (row : Row) (column : String) :
    Except PyErr (String × Nat) :=
  match resolve_cell sch row column with
  | .error e => .error e
  | .ok r =>
    match sub row column (.val (.str r.cell.toPyStr), r.color) with
    | .error e => .error e
    | .ok (t0, colorOut) =>
      let t1 : Row := if r.cell = .val .none then .val (.str "") else t0
      match justifyRow (r.justify.getD .ljust) t1 r.width with
      | .error e => .error e
      | .ok text => .ok (text, colorOut)

/-- A dataset: the schema and the ordered rows conforming to it
(client_curses.py class Data). -/
structure Data where
  schema : Schema
  data : List Row

/-- The Buffer state (client_curses.py class Buffer): dataset, column format,
title, scroll offset, cached body lines and header cells, last-refresh
instant in microseconds, and the two dirty flags. -/
structure BufState where
  data : Data
  format : List String
  title : String
  line_offset : Nat
  lines : List (List (String × Nat))
  col_names : List (String × Nat)
  last_refreshed : Nat
  headers_outstanding : Bool
  body_outstanding : Bool

/-- Buffer.invalidate (line 149): set both dirty flags. -/
def invalidate (st : BufState) : BufState :=
  { st with headers_outstanding := true, body_outstanding := true }

/-- Buffer.renew (lines 56-105), parameterised by the substitute hook the
dispatching subclass supplies: recompute every header cell and every body
line from the dataset and format, then invalidate. Exceptions raised by
resolution or formatting propagate. -/
def renew (sub : SubFn) (st : BufState) : Except PyErr BufState :=
  match st.format.mapM (fun c => headerCell st.data.schema c) with
  | .error e => .error e
  | .ok cols =>
    match st.data.data.mapM (fun row => st.format.mapM (fun c => bodyCell sub st.data.schema row c)) with
    | .error e => .error e
    | .ok ls => .ok (invalidate { st with col_names := cols, lines := ls })

/-- Buffer.scroll_up (lines 107-109): decrease the offset, floored at 0,
and invalidate. -/
def scroll_up (st : BufState) (n : Nat) : BufState :=
  invalidate { st with line_offset := st.line_offset - n }

/-- Buffer.scroll_down (lines 111-113): increase the offset, capped at the
number of cached lines, and invalidate. -/
def scroll_down (st : BufState) (n : Nat) : BufState :=
  invalidate { st with line_offset := min (st.line_offset + n) st.lines.length }

/-- Buffer.position_summary (lines 115-116): the 1-based visible range over
the total row count. -/
def position_summary (st : BufState) (dim_lines : Nat) : String :=
  "[" ++ toString (st.line_offset + 1) ++ ".." ++
    toString (min (st.line_offset + dim_lines) st.lines.length) ++ "/" ++
    toString st.lines.length ++ "]"

/-- Python timedelta seconds attribute for a nonnegative difference given in
microseconds: the whole-second part reduced modulo one day (86400), not the
total elapsed seconds. -/
def tdSeconds (deltaUs : Nat) : Nat := deltaUs / 1000000 % 86400

/-- Buffer.refresh of the base class (lines 152-153): only invalidates. -/
def base_refresh (st : BufState) : Except PyErr BufState := .ok (invalidate st)

/-- Buffer.consider_refresh (lines 155-158), parameterised by the refresh the
dispatching subclass supplies: when the seconds attribute of now minus the
last-refresh instant exceeds 30, record now and refresh; otherwise do
nothing. Exceptions from the refresh propagate. -/
def consider_refresh (refreshFn : BufState → Except PyErr BufState)
    (st : BufState) (nowUs : Nat) : Except PyErr BufState :=
  if tdSeconds (nowUs - st.last_refreshed) > 30 then
    refreshFn { st with last_refreshed := nowUs }
  else .ok st

/-- Zero-padded two-digit decimal rendering. -/
def pad2 (n : Nat) : String := if n < 10 then "0" ++ toString n else toString n

/-- Zero-padded four-digit decimal rendering. -/
def pad4 (n : Nat) : String :=
  if n < 10 then "000" ++ toString n
  else if n < 100 then "00" ++ toString n
  else if n < 1000 then "0" ++ toString n
  else toString n

/-- Gregorian civil date from a day count since the epoch (standard
era-based conversion, valid for nonnegative day counts). -/
def civilFromDays (days : Nat) : Nat × Nat × Nat :=
  let z := days + 719468
  let era := z / 146097
  let doe := z % 146097
  let yoe := (doe - doe / 1460 + doe / 36524 - doe / 146096) / 365
  let y := yoe + era * 400
  let doy := doe - (365 * yoe + yoe / 4 - yoe / 100)
  let mp := (5 * doy + 2) / 153
  let d := doy - (153 * mp + 2) / 5 + 1
  let m := if mp < 10 then mp + 3 else mp - 9
  (if m ≤ 2 then y + 1 else y, m, d)

/-- Rendering of a microsecond timestamp in the %Y-%m-%d %H:%M:%S form used
by the BoardBuffer title. -/
def fmtDateTime (us : Nat) : String :=
  let secs := us / 1000000
  let (y, m, d) := civilFromDays (secs / 86400)
  let rem := secs % 86400
  pad4 y ++ "-" ++ pad2 m ++ "-" ++ pad2 d ++ " " ++
    pad2 (rem / 3600) ++ ":" ++ pad2 (rem % 3600 / 60) ++ ":" ++ pad2 (rem % 60)

/-- BoardBuffer title line (client_curses.py line 180). -/
def board_title (location_code : String) (dt_start_us : Nat) (duration : Nat) : String :=
  "STATION DEPARTURE BOARD ENQUIRY - " ++ location_code ++ " " ++
    fmtDateTime dt_start_us ++ " - " ++ toString duration ++ " MINUTES"

/-- BoardBuffer column format (lines 172-176). -/
def board_format : List String :=
  ["service/uid", "service/atoc_code", "service/category",
   "service/power_type", "service/operating_characteristics", "service/signalling_id",
   "arrival_scheduled/short", "departure_scheduled/short", "pass_scheduled/short",
   "platform", "service/current_variation",
   "arrival_actual/short", "departure_actual/short", "origin/name", "destination/name"]

/-- Short time sub-schema of get_board (lines 213-216). -/
def time_schema_short : List (String × Schema) :=
  [("iso", .leaf { width := some 19 }),
   ("short", .leaf { width := some 4 })]

/-- Time sub-schema of get_board (lines 217-220). -/
def time_schema : List (String × Schema) :=
  [("iso", .leaf { width := some 19 }),
   ("short", .leaf { width := some 5 })]

/-- Location sub-schema of get_board (lines 222-226). -/
def location_schema : List (String × Schema) :=
  [("name", .leaf { width := some 30 }),
   ("tiploc", .leaf { width := some 7 }),
   ("crs", .leaf { width := some 3 })]

/-- The BoardBuffer schema (client_curses.py lines 228-258). -/
def board_schema : Schema :=
  .node {}
    [("service", .node {}
        [("uid", .leaf { name := some ("UID"), width := some 6, justify := some .rjust }),
         ("atoc_code", .leaf { name := some ("o."), width := some 2 }),
         ("power_type", .leaf { name := some ("pw."), width := some 3 }),
         ("category", .leaf { name := some ("c."), width := some 2 }),
         ("signalling_id", .leaf { name := some ("sig."), width := some 4 }),
         ("actual_signalling_id", .leaf { name := some ("rt.s"), width := some 4, color := some 3 }),
         ("current_variation", .leaf { name := some ("v."), width := some 3, justify := some .rjust, color := some 3 }),
         ("operating_characteristics", .leaf { name := some ("oc."), width := some 4 })]),
     ("trust_arrival", .node {}
        [("platform", .leaf { name := some ("pt."), width := some 3, justify := some .platform })]),
     ("trust_departure", .node {}
        [("platform", .leaf { name := some ("pt."), width := some 3, justify := some .platform })]),
     ("platform", .leaf { name := some ("pt."), width := some 3, justify := some .platform }),
     ("arrival_scheduled", .node { name := some ("arrival") } time_schema),
     ("departure_scheduled", .node { name := some ("departure") } time_schema),
     ("pass_scheduled", .node { name := some ("pass") } time_schema),
     ("arrival_actual", .node { name := some ("arrival"), color := some 3 } time_schema_short),
     ("departure_actual", .node { name := some ("departure"), color := some 3 } time_schema_short),
     ("origin", .node { name := some ("origin") } location_schema),
     ("destination", .node { name := some ("destination") } location_schema)]

/-- BoardBuffer.substitute_fn (client_curses.py lines 184-208), rules in
source order with Python short-circuit evaluation: de-emphasis of the origin
or destination matching the queried station (colour 5); the current-variation
estimate once an actual time is recorded, choosing the departure movement
when it has a variation status and the arrival movement otherwise, showing
variation then status for a status contained in the text EL (colour 5) and
empty text otherwise (colour 5); the actual signalling id when present
(colour 3); the live platform, departure side preferred (colour 3); and
emphasis (colour 7) when the operating characteristics contain Q. -/
def board_substitute_fn : SubFn := fun x y z => do
  if pyStartsWith y ("origin") then
    let here ← (← x.getKey ("here")).getKey ("tiploc")
    let org ← (← x.getKey ("origin")).getKey ("tiploc")
    if rowPyEq here org then
      return (z.1, 5)
  if pyStartsWith y ("destination") then
    let here ← (← x.getKey ("here")).getKey ("tiploc")
    let dst ← (← x.getKey ("destination")).getKey ("tiploc")
    if rowPyEq here dst then
      return (z.1, 5)
  if y = "service/current_variation" then
    let arrUt ← (← x.getKey ("arrival_actual")).getKey ("ut")
    let went ←
      if arrUt.truthy then pure true
      else do
        let depUt ← (← x.getKey ("departure_actual")).getKey ("ut")
        pure depUt.truthy
    if went then
      let dep ← x.getKey ("trust_departure")
      let vs0 ← dep.getKey ("variation_status")
      let movement ← if vs0.truthy then pure dep else x.getKey ("trust_arrival")
      let vs ← movement.getKey ("variation_status")
      match vs with
      | .val (.str s) =>
        if pyInStr s ("EL") then
          let v ← movement.getKey ("variation")
          return (.val (.str (v.toPyStr ++ s)), 5)
        else
          return (.val (.str ""), 5)
      | _ => throw .typeError
  if y = "service/signalling_id" then
    let sid ← (← x.getKey ("service")).getKey ("actual_signalling_id")
    if sid.truthy then
      return (sid, 3)
  if y = "platform" then
    let ta ← (← x.getKey ("trust_arrival")).getKey ("platform")
    let known ←
      if ta.truthy then pure true
      else do
        let td ← (← x.getKey ("trust_departure")).getKey ("platform")
        pure td.truthy
    if known then
      let td ← (← x.getKey ("trust_departure")).getKey ("platform")
      if td.truthy then
        return (td, 3)
      else
        let ta2 ← (← x.getKey ("trust_arrival")).getKey ("platform")
        return (ta2, 3)
  if y = "service/operating_characteristics" then
    let oc ← (← x.getKey ("service")).getKey ("operating_characteristics")
    match oc with
    | .val (.str s) =>
      if pyInStr ("Q") s then
        return (z.1, 7)
    | .objCons k v r =>
      if (Row.objCons k v r).getKey ("Q") matches .ok _ then
        return (z.1, 7)
    | _ => throw .typeError
  return z

/-- ServiceBuffer.substitute_fn (client_curses.py lines 343-359): the same
current-variation rule as the board, but with an explicit otherwise branch
rendering empty text in the default colour, followed by the live-platform
rule; no origin, signalling or characteristics rules. -/
def service_substitute_fn : SubFn := fun x y z => do
  if y = "service/current_variation" then
    let arrUt ← (← x.getKey ("arrival_actual")).getKey ("ut")
    let went ←
      if arrUt.truthy then pure true
      else do
        let depUt ← (← x.getKey ("departure_actual")).getKey ("ut")
        pure depUt.truthy
    if went then
      let dep ← x.getKey ("trust_departure")
      let vs0 ← dep.getKey ("variation_status")
      let movement ← if vs0.truthy then pure dep else x.getKey ("trust_arrival")
      let vs ← movement.getKey ("variation_status")
      match vs with
      | .val (.str s) =>
        if pyInStr s ("EL") then
          let v ← movement.getKey ("variation")
          return (.val (.str (v.toPyStr ++ s)), 5)
        else
          return (.val (.str ""), 5)
      | _ => throw .typeError
    else
      return (.val (.str ""), 0)
  if y = "platform" then
    let ta ← (← x.getKey ("trust_arrival")).getKey ("platform")
    let known ←
      if ta.truthy then pure true
      else do
        let td ← (← x.getKey ("trust_departure")).getKey ("platform")
        pure td.truthy
    if known then
      let td ← (← x.getKey ("trust_departure")).getKey ("platform")
      if td.truthy then
        return (td, 3)
      else
        let ta2 ← (← x.getKey ("trust_arrival")).getKey ("platform")
        return (ta2, 3)
  return z

/-- BoardBuffer.refresh (lines 179-182), with the dataset the domain query
returns passed in (the query itself is the external data provider): rebuild
the title, install the new dataset, and renew with the board hook. -/
def board_refresh (dt_start_us duration : Nat) (location_code : String)
    (query_result : Data) (st : BufState) : Except PyErr BufState :=
  renew board_substitute_fn
    { st with title := board_title location_code dt_start_us duration
              data := query_result }

/-- Compose-line state of the entry mode: the composed text and the cursor
position (main loop locals compose and cursor_pos). -/
structure ComposeState where
  compose : String
  cursor_pos : Nat
  deriving DecidableEq

/-- Printable-character insertion (client_curses.py lines 597-602): accepted
when the cursor lies strictly left of the last window column, inserting at
the cursor and advancing it; otherwise rejected with a beep (the Bool
result) and no
state change. -/
def entry_insert (st : ComposeState) (c : Char) (win_cols : Nat) : ComposeState × Bool :=
  if st.cursor_pos < win_cols - 1 then
    ({ compose := st.compose.take st.cursor_pos ++ String.singleton c ++
         st.compose.drop st.cursor_pos
       cursor_pos := st.cursor_pos + 1 }, false)
  else (st, true)

/-- Backspace handling (lines 570-573): when the cursor is not at 0, remove
the character before it and step the cursor left. -/
def entry_backspace (st : ComposeState) : ComposeState :=
  if st.cursor_pos ≠ 0 then
    { compose := st.compose.take (st.cursor_pos - 1) ++ st.compose.drop st.cursor_pos
      cursor_pos := st.cursor_pos - 1 }
  else st

/-- Delete-key handling (lines 574-576): guarded by the same cursor-truthiness
test as backspace, so it removes the character at the cursor only when the
cursor is not at 0, and leaves the cursor in place. -/
def entry_delete (st : ComposeState) : ComposeState :=
  if st.cursor_pos ≠ 0 then
    { st with compose := st.compose.take st.cursor_pos ++ st.compose.drop (st.cursor_pos + 1) }
  else st

/-- Cursor-left handling (lines 577-578): floored at 0. -/
def entry_left (st : ComposeState) : ComposeState :=
  { st with cursor_pos := st.cursor_pos - 1 }

/-- Cursor-right handling (lines 579-580): capped at the compose length. -/
def entry_right (st : ComposeState) : ComposeState :=
  { st with cursor_pos := min (st.cursor_pos + 1) st.compose.length }

/-- Python list indexing with IndexError for an out-of-range index. -/
def listIdx : List α → Nat → Except PyErr α
  | [], _ => .error .indexError
  | a :: _, 0 => .ok a
  | _ :: as, n + 1 => listIdx as n

/-- Calendar date produced by strptime with the %Y-%m-%d format. -/
structure PyDate where
  year : Nat
  month : Nat
  day : Nat
  deriving DecidableEq

/-- Numeric value of an all-digit ASCII string, when it is one. -/
def parseDigits (s : String) : Option Nat :=
  if s ≠ "" && s.data.all Char.isDigit then
    some (s.data.foldl (fun n c => n * 10 + (c.toNat - 48)) 0)
  else Option.none

/-- Leap-year test of the Gregorian calendar. -/
def isLeap (y : Nat) : Bool := y % 4 = 0 && (y % 100 ≠ 0 || y % 400 = 0)

/-- Day count of a month. -/
def daysInMonth (y m : Nat) : Nat :=
  if m = 2 then (if isLeap y then 29 else 28)
  else if m = 4 || m = 6 || m = 9 || m = 11 then 30
  else 31

/-- Model of datetime.strptime(s, %Y-%m-%d).date() from the Python standard
library: three dash-separated digit groups (year up to four digits, month and
day up to two), month in 1..12, day within the month, year at least 1;
anything else raises ValueError. -/
def strptime_ymd (s : String) : Except PyErr PyDate :=
  match pySplit '-' s with
  | [ys, ms, ds] =>
    match parseDigits ys, parseDigits ms, parseDigits ds with
    | some y, some m, some d =>
      if ys.length ≤ 4 && ms.length ≤ 2 && ds.length ≤ 2 &&
         1 ≤ y && 1 ≤ m && m ≤ 12 && 1 ≤ d && d ≤ daysInMonth y m then
        .ok { year := y, month := m, day := d }
      else .error .valueError
    | _, _, _ => .error .valueError
  | _ => .error .valueError

/-- Parameters of a view constructed on submit; the dataset fetch the
constructor performs belongs to the external data provider. -/
inductive ViewSpec where
  | board (dt_start_us : Int) (duration : Nat) (location_code : String)
  | service (date_start : PyDate) (service_code : String)
  deriving DecidableEq

/-- The buffer the main loop currently displays: the initial welcome
TextBuffer or a view constructed by a submitted command. -/
inductive ActiveView where
  | initial
  | spec (v : ViewSpec)
  deriving DecidableEq

/-- Editor state at the enter key: compose line, cursor, mode flag and the
active buffer. -/
structure EditorState where
  compose : String
  cursor_pos : Nat
  text_entry_mode : Bool
  active : ActiveView
  deriving DecidableEq

/-- Command recognition at submit (client_curses.py lines 585-592): a compose
line whose lowercase form starts with trjd-space builds a board view 10
minutes before now with a 120 minute window at the uppercased second
space-separated field; one starting with uid-space builds a service view from
the uppercased second field and the strptime-parsed third field; anything
else builds nothing. IndexError and ValueError propagate. -/
def submit_compose (compose : String) (now_us : Nat) : Except PyErr (Option ViewSpec) :=
  if pyStartsWith (pyLower compose) ("trjd ") then
    match listIdx (pySplit ' ' compose) 1 with
    | .error e => .error e
    | .ok crs => .ok (some (.board ((now_us : Int) - 10 * 60 * 1000000) 120 (pyUpper crs)))
  else if pyStartsWith (pyLower compose) ("uid ") then
    match listIdx (pySplit ' ' compose) 1 with
    | .error e => .error e
    | .ok uid =>
      match listIdx (pySplit ' ' compose) 2 with
      | .error e => .error e
      | .ok ds =>
        match strptime_ymd ds with
        | .error e => .error e
        | .ok date => .ok (some (.service date (pyUpper uid)))
  else .ok Option.none

/-- Enter-key handling in entry mode (lines 584-596): recognise the compose
line, then clear it, reset the cursor, leave entry mode, and replace the
active buffer exactly when a view was constructed. -/
def handleEnter (st : EditorState) (now_us : Nat) : Except PyErr EditorState :=
  match submit_compose st.compose now_us with
  | .error e => .error e
  | .ok v =>
    .ok { compose := ""
          cursor_pos := 0
          text_entry_mode := false
          active := match v with
                    | some vs => .spec vs
                    | Option.none => st.active }

/-- Colour-pair role initialised in main (client_curses.py line 500): pair 3,
aqua, is the colour the source comment marks as used to indicate live data,
and is the colour the signalling-id and platform override rules use. -/
def live_data_color : Nat := 3

/-- Colour-pair role initialised in main (line 501): pair 5, light grey, is
the colour the source comment marks as body de-emphasis. -/
def deemphasis_color : Nat := 5

/-- Colour-pair role initialised in main (line 503): pair 7, bright yellow,
body characteristic emphasis. -/
def emphasis_color : Nat := 7

/-- Schema of the welcome TextBuffer built at startup (line 524): one leaf
column of display name Body and width 4. -/
def welcome_schema : Schema :=
  .node {} [("body", .leaf { name := some ("Body"), width := some 4 })]

/-- Rows of the welcome TextBuffer (line 524): line i for i in 1..79. -/
def welcome_rows : List Row :=
  (List.range 79).map (fun i => objOf [("body", .val (.str ("line " ++ toString (i + 1))))])

/-- First row of the welcome TextBuffer. -/
def welcome_row1 : Row := objOf [("body", .val (.str ("line 1")))]

/-- The welcome TextBuffer as constructed (lines 522-526), before its
constructor calls renew. -/
def welcome_buffer : BufState :=
  { data := { schema := welcome_schema, data := welcome_rows }
    format := ["body"]
    title := "Welcome to BeryilliumSwallow"
    line_offset := 0
    lines := []
    col_names := []
    last_refreshed := 0
    headers_outstanding := false
    body_outstanding := false }

/-- Board row of the end-to-end scenario: scheduled departure noon, actual
departure recorded (so the departure ut is set), departure movement variation
status L with variation 1, and the service current_variation field holding
the live value 1. Only the fields the current-variation column touches are
listed. -/
def scenario_row : Row := objOf
  [("service", objOf [("current_variation", .val (.str "1"))]),
   ("arrival_actual", objOf [("ut", .val .none)]),
   ("departure_actual", objOf [("ut", .val (.int 1709294490))]),
   ("trust_departure", objOf [("variation_status", .val (.str "L")), ("variation", .val (.str "1"))]),
   ("trust_arrival", objOf [("variation_status", .val .none), ("variation", .val .none)])]

/-- Board row whose departure movement has no variation status, while the
arrival movement is early by 2 (int variation), with an actual arrival. -/
def scenario_row_arr : Row := objOf
  [("service", objOf [("current_variation", .val (.str "2"))]),
   ("arrival_actual", objOf [("ut", .val (.int 1709294000))]),
   ("departure_actual", objOf [("ut", .val .none)]),
   ("trust_departure", objOf [("variation_status", .val .none), ("variation", .val .none)]),
   ("trust_arrival", objOf [("variation_status", .val (.str "E")), ("variation", .val (.int 2))])]

/-- Board row whose chosen movement carries an off-route variation status. -/
def scenario_row_off : Row := objOf
  [("service", objOf [("current_variation", .val (.str "4"))]),
   ("arrival_actual", objOf [("ut", .val .none)]),
   ("departure_actual", objOf [("ut", .val (.int 1709294490))]),
   ("trust_departure", objOf [("variation_status", .val (.str "M")), ("variation", .val (.int 4))]),
   ("trust_arrival", objOf [("variation_status", .val .none), ("variation", .val .none)])]

/-- Board row with no actual arrival or departure recorded but a nonempty
current_variation field in the service record. -/
def scenario_row_sched : Row := objOf
  [("service", objOf [("current_variation", .val (.str "1"))]),
   ("arrival_actual", objOf [("ut", .val .none)]),
   ("departure_actual", objOf [("ut", .val .none)]),
   ("trust_departure", objOf [("variation_status", .val .none), ("variation", .val .none)]),
   ("trust_arrival", objOf [("variation_status", .val .none), ("variation", .val .none)])]

/-- Inheritance fixture: an ancestor declaring width 5 above an interior node
declaring width 9 above a leaf with no width. -/
def prec_schema_anc : Schema :=
  .node { width := some 5 }
    [("mid", .node { width := some 9 }
      [("leafy", .leaf { name := some ("n") })])]

/-- Inheritance fixture: as prec_schema_anc but the ancestor leaves the width
unset. -/
def prec_schema_mid : Schema :=
  .node {}
    [("mid", .node { width := some 9 }
      [("leafy", .leaf { name := some ("n") })])]

/-- Inheritance fixture: every ancestor declares colour 3, the leaf declares
colour 7 (and width 2 so it resolves). -/
def prec_schema_leaf : Schema :=
  .node { color := some 3 }
    [("mid", .node { color := some 3 }
      [("leafy", .leaf { name := some ("n"), width := some 2, color := some 7 })])]

/-- Row matching the inheritance fixtures. -/
def prec_row : Row := objOf [("mid", objOf [("leafy", .val (.str "v"))])]

/-- Buffer over a schema whose single leaf never receives a width. -/
def bad_width_buffer : BufState :=
  { data := { schema := .node {} [("x", .leaf { name := some ("X") })]
              data := [objOf [("x", .val (.str "hi"))]] }
    format := ["x"]
    title := ""
    line_offset := 0
    lines := []
    col_names := []
    last_refreshed := 0
    headers_outstanding := false
    body_outstanding := false }

/-- Buffer whose format names a display path missing from its schema. -/
def bad_path_buffer : BufState :=
  { data := { schema := welcome_schema, data := [welcome_row1] }
    format := ["nope"]
    title := ""
    line_offset := 0
    lines := []
    col_names := []
    last_refreshed := 0
    headers_outstanding := false
    body_outstanding := false }

/-- Board-shaped dataset whose schema omits the uid width, as a failing
refresh payload. -/
def bad_board_data : Data :=
  { schema := .node {} [("service", .node {} [("uid", .leaf { name := some ("UID") })])]
    data := [] }

/-- Board buffer about to refresh into bad_board_data. -/
def bad_board_buffer : BufState :=
  { data := bad_board_data
    format := board_format
    title := ""
    line_offset := 0
    lines := []
    col_names := []
    last_refreshed := 0
    headers_outstanding := false
    body_outstanding := false }

/-- Scroll fixture: three cached lines with the offset at 2. -/
def scroll_buffer : BufState :=
  { data := { schema := welcome_schema, data := [] }
    format := ["body"]
    title := ""
    line_offset := 2
    lines := [[("a   ", 0)], [("b   ", 0)], [("c   ", 0)]]
    col_names := []
    last_refreshed := 0
    headers_outstanding := false
    body_outstanding := false }

/-- Refresh-shrink fixture: the scroll offset sits at 5 while the dataset
about to be rendered has two rows. -/
def shrink_buffer : BufState :=
  { data := { schema := welcome_schema
              data := [objOf [("body", .val (.str "aa"))], objOf [("body", .val (.str "bb"))]] }
    format := ["body"]
    title := "t"
    line_offset := 5
    lines := [[("old1", 0)], [("old2", 0)], [("old3", 0)], [("old4", 0)], [("old5", 0)], [("old6", 0)]]
    col_names := []
    last_refreshed := 0
    headers_outstanding := false
    body_outstanding := false }

/-- Renewed shrink fixture: what renew produces on shrink_buffer. -/
def shrink_renewed : BufState :=
  invalidate { shrink_buffer with
    col_names := [("Body", 0)]
    lines := [[("aa  ", 0)], [("bb  ", 0)]] }

/-- Result of a successful board refresh of the welcome buffer into a
one-row dataset over the welcome schema. -/
def board_refresh_demo : BufState :=
  invalidate { welcome_buffer with
    title := board_title ("CDF") 0 120
    data := { schema := welcome_schema, data := [welcome_row1] }
    col_names := [("Body", 0)]
    lines := [[("line 1", 0)]] }

lemma spaces_length (n : Nat) : (spaces n).length = n := by
  show (List.replicate n ' ').length = n
  exact List.length_replicate n ' '

lemma pyLjust_length (s : String) (w : Nat) : (pyLjust s w).length = max w s.length := by
  unfold pyLjust
  rw [String.length_append, spaces_length]
  omega

lemma pyRjust_length (s : String) (w : Nat) : (pyRjust s w).length = max w s.length := by
  unfold pyRjust
  rw [String.length_append, spaces_length]
  omega

lemma pyCenter_length (s : String) (w : Nat) : (pyCenter s w).length = max w s.length := by
  simp only [pyCenter]
  rw [String.length_append, String.length_append, spaces_length, spaces_length]
  have hb : ((w - s.length) &&& w) &&& 1 ≤ 1 := by
    rw [Nat.and_one_is_mod]
    omega
  have hz : w - s.length = 0 → ((w - s.length) &&& w) &&& 1 = 0 := by
    intro h
    rw [h]
    simp
  rcases Nat.eq_zero_or_pos (w - s.length) with h | h
  · rw [hz h]
    omega
  · omega

lemma platform_justify_length (s : String) (out : String)
    (h : platform_justify s 3 = .ok out) : out.length = max 3 s.length := by
  unfold platform_justify at h
  rw [if_neg (by omega)] at h
  by_cases he : s = ""
  · rw [if_pos he] at h
    cases h
    rw [he]
    rfl
  · rw [if_neg he] at h
    by_cases h1 : s.length = 1
    · rw [if_pos h1] at h
      cases h
      rw [String.length_append, String.length_append, h1]
      rfl
    · rw [if_neg h1] at h
      have h2 : 1 ≤ s.length := by
        rcases Nat.eq_zero_or_pos s.length with h0 | h0
        · exact absurd (String.ext (by simpa [String.length] using List.length_eq_zero.mp h0)) he
        · exact h0
      split at h
      · cases h
        exact pyRjust_length s 3
      · cases h
        exact pyLjust_length s 3

lemma justifyRow_str_length (j : Justify) (s : String) (w : Nat) (out : String)
    (h : justifyRow j (.val (.str s)) (some w) = .ok out) : out.length = max w s.length := by
  cases j
  · simp only [justifyRow] at h
    cases h
    exact pyLjust_length s w
  · simp only [justifyRow] at h
    cases h
    exact pyRjust_length s w
  · simp only [justifyRow] at h
    cases h
    exact pyCenter_length s w
  · simp only [justifyRow] at h
    by_cases hw : w = 3
    · subst hw
      rw [if_neg (by simp)] at h
      exact platform_justify_length s out h
    · rw [if_pos (by simpa using hw)] at h
      cases h

lemma toRepr_objCons_length (k : String) (v rest : Row) :
    1 ≤ (Row.toRepr (.objCons k v rest)).length := by
  rw [Row.toRepr]
  have h14 : ("OrderedDict([(" : String).length = 14 := rfl
  simp only [String.length_append]
  omega

lemma justifyRow_width_le (j : Justify) (t : Row) (w : Nat) (out : String)
    (h : justifyRow j t (some w) = .ok out) : w ≤ out.length := by
  cases j
  · simp only [justifyRow] at h
    match t, h with
    | .val (.str s), h =>
      cases h
      rw [pyLjust_length]
      omega
    | .val .none, h => cases h
    | .val (.int n), h => cases h
    | .objNil, h => cases h
    | .objCons k v r, h => cases h
  · simp only [justifyRow] at h
    match t, h with
    | .val (.str s), h =>
      cases h
      rw [pyRjust_length]
      omega
    | .val .none, h => cases h
    | .val (.int n), h => cases h
    | .objNil, h => cases h
    | .objCons k v r, h => cases h
  · simp only [justifyRow] at h
    match t, h with
    | .val (.str s), h =>
      cases h
      rw [pyCenter_length]
      omega
    | .val .none, h => cases h
    | .val (.int n), h => cases h
    | .objNil, h => cases h
    | .objCons k v r, h => cases h
  · simp only [justifyRow] at h
    by_cases hw : w = 3
    · subst hw
      rw [if_neg (by simp)] at h
      match t, h with
      | .val (.str s), h =>
        rw [platform_justify_length s out h]
        omega
      | .val .none, h => cases h; rfl
      | .val (.int n), h =>
        have h2 : (if n = 0 then (Except.ok ("   ") : Except PyErr String)
            else Except.error PyErr.typeError) = Except.ok out := h
        by_cases hn : n = 0
        · rw [if_pos hn] at h2
          cases h2
          rfl
        · rw [if_neg hn] at h2
          cases h2
      | .objNil, h => cases h; rfl
      | .objCons k v .objNil, h =>
        cases h
        rw [String.length_append, String.length_append]
        have := toRepr_objCons_length k v .objNil
        have ht : Row.toPyStr (.objCons k v .objNil) = Row.toRepr (.objCons k v .objNil) := rfl
        have hsp : (" " : String).length = 1 := rfl
        rw [ht, hsp]
        omega
      | .objCons k v (.val u), h => cases h
      | .objCons k v (.objCons k2 v2 r2), h => cases h
    · rw [if_pos (by simpa using hw)] at h
      cases h

lemma renew_ok_shape (sub : SubFn) (st st' : BufState) (h : renew sub st = .ok st') :
    ∃ cols ls, st' = invalidate { st with col_names := cols, lines := ls } := by
  unfold renew at h
  split at h
  · cases h
  · split at h
    · cases h
    · injection h with h2
      exact ⟨_, _, h2.symm⟩

/-- Claim C2, counterexample: with the last refresh at instant 0, calling
consider_refresh 30.5 seconds later (30500000 microseconds, strictly more
than 30 seconds of elapsed time) performs no refresh and leaves the buffer
unchanged, because the timedelta seconds attribute truncates to 30. -/
theorem claim_C2_cex :
    consider_refresh base_refresh welcome_buffer 30500000 = .ok welcome_buffer ∧
    30500000 - welcome_buffer.last_refreshed > 30 * 1000000 := by
  exact ⟨rfl, by decide⟩

/-- Claim C2, amended: consider_refresh triggers the refresh if and only if
the timedelta seconds attribute of the elapsed time - its whole-second count
reduced modulo one day, not the total elapsed time - strictly exceeds 30; in
particular an elapsed time of at most 30 seconds never refreshes, and when
the refresh fires it first records now as the new last-refresh instant. -/
theorem claim_C2 (refreshFn : BufState → Except PyErr BufState) (st : BufState) (now : Nat) :
    (tdSeconds (now - st.last_refreshed) > 30 →
      consider_refresh refreshFn st now = refreshFn { st with last_refreshed := now }) ∧
    (tdSeconds (now - st.last_refreshed) ≤ 30 → consider_refresh refreshFn st now = .ok st) ∧
    (now - st.last_refreshed ≤ 30 * 1000000 → consider_refresh refreshFn st now = .ok st) := by
  refine ⟨fun h => ?_, fun h => ?_, fun h => ?_⟩
  · unfold consider_refresh
    rw [if_pos h]
  · unfold consider_refresh
    rw [if_neg (by omega)]
  · unfold consider_refresh
    rw [if_neg ?_]
    unfold tdSeconds
    omega

/-- Claim C2, witness: at 31 whole seconds elapsed the refresh fires and
records the new instant; at exactly 30 seconds it does not. -/
theorem claim_C2_witness :
    consider_refresh base_refresh welcome_buffer 31000000 =
      base_refresh { welcome_buffer with last_refreshed := 31000000 } ∧
    consider_refresh base_refresh welcome_buffer 30000000 = .ok welcome_buffer := by
  exact ⟨(claim_C2 base_refresh welcome_buffer 31000000).1 (by decide),
    (claim_C2 base_refresh welcome_buffer 30000000).2.2 (by decide)⟩

/-- Claim C4: the platform justifier maps the empty string to three spaces,
centers a single character, right justifies any value whose first character
is numeric and whose last is alphabetic, left justifies any other value of
two or more characters, and raises ValueError for every width other than 3
regardless of the value. -/
theorem claim_C4 :
    platform_justify ("") 3 = .ok "   " ∧
    platform_justify ("5") 3 = .ok " 5 " ∧
    platform_justify ("3R") 3 = .ok " 3R" ∧
    platform_justify ("LH") 3 = .ok "LH " ∧
    (∀ s length, length ≠ 3 → platform_justify s length = .error .valueError) ∧
    (∀ s, 2 ≤ s.length → s.back.isAlpha = true → s.front.isDigit = true →
      platform_justify s 3 = .ok (pyRjust s 3)) ∧
    (∀ s, 2 ≤ s.length → (s.back.isAlpha && s.front.isDigit) = false →
      platform_justify s 3 = .ok (pyLjust s 3)) := by
  refine ⟨rfl, rfl, rfl, rfl, fun s l h => ?_, fun s h2 ha hd => ?_, fun s h2 hb => ?_⟩
  · unfold platform_justify
    rw [if_pos h]
  · have he : s ≠ "" := by
      intro he
      rw [he] at h2
      exact absurd h2 (by decide)
    unfold platform_justify
    rw [if_neg (by omega), if_neg he, if_neg (by omega), if_pos (by rw [ha, hd]; rfl)]
  · have he : s ≠ "" := by
      intro he
      rw [he] at h2
      exact absurd h2 (by decide)
    unfold platform_justify
    rw [if_neg (by omega), if_neg he, if_neg (by omega), if_neg (by rw [hb]; exact Bool.false_ne_true)]

/-- Claim C4, witness: width 4 fails on an arbitrary value; 12A right
justifies; 12 left justifies. -/
theorem claim_C4_witness :
    platform_justify ("LH") 4 = .error .valueError ∧
    platform_justify ("12A") 3 = .ok (pyRjust ("12A") 3) ∧
    platform_justify ("12") 3 = .ok (pyLjust ("12") 3) := by
  exact ⟨claim_C4.2.2.2.2.1 ("LH") 4 (by decide),
    claim_C4.2.2.2.2.2.1 ("12A") (by decide) (by decide) (by decide),
    claim_C4.2.2.2.2.2.2 ("12") (by decide) (by decide)⟩

/-- Claim C8: for a buffer whose offset lies within the row count, any scroll
keeps the offset within 0..row count; scrolling down far enough stops the
offset exactly at the row count, scrolling up far enough stops it at 0, and
after a full scroll up the position summary reports a window starting at
row 1 and ending at the minimum of the page size and the row count. -/
theorem claim_C8 (st : BufState) (n d : Nat) :
    (st.line_offset ≤ st.lines.length →
      (scroll_down st n).line_offset ≤ st.lines.length ∧
      (scroll_up st n).line_offset ≤ st.lines.length) ∧
    (st.lines.length ≤ st.line_offset + n →
      (scroll_down st n).line_offset = st.lines.length) ∧
    (st.line_offset ≤ n → (scroll_up st n).line_offset = 0) ∧
    (st.line_offset ≤ n →
      position_summary (scroll_up st n) d =
        "[1.." ++ toString (min d st.lines.length) ++ "/" ++
          toString st.lines.length ++ "]") := by
  refine ⟨fun h => ⟨?_, ?_⟩, fun h => ?_, fun h => ?_, fun h => ?_⟩
  · simp only [scroll_down, invalidate]
    omega
  · simp only [scroll_up, invalidate]
    omega
  · simp only [scroll_down, invalidate]
    omega
  · simp only [scroll_up, invalidate]
    omega
  · have h0 : st.line_offset - n = 0 := by omega
    simp only [position_summary, scroll_up, invalidate, h0, Nat.zero_add]
    rfl

/-- Claim C8, witness: three rows at offset 2; scrolling down by 1000 stops
at 3, up by 1000 stops at 0, and the summary then reads a window from row 1. -/
theorem claim_C8_witness :
    ((scroll_down scroll_buffer 1000).line_offset ≤ scroll_buffer.lines.length ∧
      (scroll_up scroll_buffer 1000).line_offset ≤ scroll_buffer.lines.length) ∧
    (scroll_down scroll_buffer 1000).line_offset = scroll_buffer.lines.length ∧
    (scroll_up scroll_buffer 1000).line_offset = 0 ∧
    position_summary (scroll_up scroll_buffer 1000) 10 =
      "[1.." ++ toString (min 10 scroll_buffer.lines.length) ++ "/" ++
        toString scroll_buffer.lines.length ++ "]" := by
  exact ⟨(claim_C8 scroll_buffer 1000 10).1 (by decide),
    (claim_C8 scroll_buffer 1000 10).2.1 (by decide),
    (claim_C8 scroll_buffer 1000 10).2.2.1 (by decide),
    (claim_C8 scroll_buffer 1000 10).2.2.2 (by decide)⟩

/-- Claim C9, counterexample: in a 4-column window, with the compose line
abdc already as wide as the window and the cursor moved back to 2, a
printable character is accepted without any alert (cursor 2 < 4 - 1), even
though the compose line then exceeds the available display width. -/
theorem claim_C9_cex :
    entry_insert { compose := "abdc", cursor_pos := 2 } 'e' 4 =
      ({ compose := "abedc", cursor_pos := 3 }, false) ∧
    ("abedc").length > 4 := by
  exact ⟨rfl, by decide⟩

/-- Claim C9, amended: insertion is rejected (alert, no state change) exactly
when the cursor sits at or beyond the next-to-last window column - the guard
tests the cursor position, not the compose length - and otherwise inserts at
the cursor, growing the compose line by one and advancing the cursor;
backspace removes the character before the cursor when the cursor is
positive; the delete key removes the character at the cursor only when the
cursor is positive and is a no-op at cursor 0; left and right moves stay
clamped to 0..compose length. -/
theorem claim_C9 (st : ComposeState) (c : Char) (w : Nat) :
    ((entry_insert st c w).2 = false ↔ st.cursor_pos < w - 1) ∧
    (¬ st.cursor_pos < w - 1 → entry_insert st c w = (st, true)) ∧
    (st.cursor_pos < w - 1 →
      entry_insert st c w =
        ({ compose := st.compose.take st.cursor_pos ++ String.singleton c ++
             st.compose.drop st.cursor_pos
           cursor_pos := st.cursor_pos + 1 }, false)) ∧
    (st.cursor_pos < w - 1 → st.cursor_pos ≤ st.compose.length →
      (entry_insert st c w).1.compose.length = st.compose.length + 1) ∧
    (st.cursor_pos ≠ 0 →
      entry_backspace st =
        { compose := st.compose.take (st.cursor_pos - 1) ++ st.compose.drop st.cursor_pos
          cursor_pos := st.cursor_pos - 1 }) ∧
    (st.cursor_pos ≠ 0 →
      entry_delete st =
        { st with compose := st.compose.take st.cursor_pos ++
            st.compose.drop (st.cursor_pos + 1) }) ∧
    (entry_delete { compose := st.compose, cursor_pos := 0 } =
      { compose := st.compose, cursor_pos := 0 }) ∧
    ((entry_left st).cursor_pos = st.cursor_pos - 1) ∧
    ((entry_right st).cursor_pos = min (st.cursor_pos + 1) st.compose.length) ∧
    (st.cursor_pos ≤ st.compose.length →
      (entry_left st).cursor_pos ≤ st.compose.length ∧
      (entry_right st).cursor_pos ≤ st.compose.length) := by
  refine ⟨?_, fun h => ?_, fun h => ?_, fun h hle => ?_, fun h => ?_, fun h => ?_, ?_, rfl, rfl,
    fun h => ⟨?_, ?_⟩⟩
  · unfold entry_insert
    split
    · next hc => simp [hc]
    · next hc => simp [hc]
  · unfold entry_insert
    rw [if_neg h]
  · unfold entry_insert
    rw [if_pos h]
  · unfold entry_insert
    rw [if_pos h]
    show (st.compose.take st.cursor_pos ++ String.singleton c ++
      st.compose.drop st.cursor_pos).length = st.compose.length + 1
    rw [String.length_append, String.length_append, String.take_eq, String.drop_eq]
    have h1 : (String.mk (st.compose.data.take st.cursor_pos)).length =
        min st.cursor_pos st.compose.length := List.length_take _ _
    have h2 : (String.mk (st.compose.data.drop st.cursor_pos)).length =
        st.compose.length - st.cursor_pos := List.length_drop _ _
    rw [h1, h2]
    have h3 : (String.singleton c).length = 1 := rfl
    rw [h3]
    omega
  · unfold entry_backspace
    rw [if_pos h]
  · unfold entry_delete
    rw [if_pos h]
  · unfold entry_delete
    rw [if_neg (by simp)]
  · simp only [entry_left]
    omega
  · simp only [entry_right]
    omega

/-- Claim C9, witness: concrete edits in a wide window - an accepted insert
with its grown length, a rejected insert at the window edge, backspace,
delete away from 0, delete as a no-op at 0, and a clamped right move. -/
theorem claim_C9_witness :
    entry_insert { compose := "abc", cursor_pos := 1 } 'x' 10 =
      ({ compose := ("abc" : String).take 1 ++ String.singleton 'x' ++ ("abc" : String).drop 1
         cursor_pos := 2 }, false) ∧
    (entry_insert { compose := "abc", cursor_pos := 1 } 'x' 10).1.compose.length = 4 ∧
    entry_insert { compose := "ab", cursor_pos := 2 } 'x' 3 =
      ({ compose := "ab", cursor_pos := 2 }, true) ∧
    entry_backspace { compose := "abc", cursor_pos := 2 } =
      { compose := ("abc" : String).take 1 ++ ("abc" : String).drop 2, cursor_pos := 1 } ∧
    entry_delete { compose := "abc", cursor_pos := 1 } =
      { compose := ("abc" : String).take 1 ++ ("abc" : String).drop 2, cursor_pos := 1 } ∧
    entry_delete { compose := "abc", cursor_pos := 0 } = { compose := "abc", cursor_pos := 0 } ∧
    (entry_right { compose := "abc", cursor_pos := 3 }).cursor_pos = 3 := by
  refine ⟨(claim_C9 { compose := "abc", cursor_pos := 1 } 'x' 10).2.2.1 (by decide),
    (claim_C9 { compose := "abc", cursor_pos := 1 } 'x' 10).2.2.2.1 (by decide) (by decide),
    (claim_C9 { compose := "ab", cursor_pos := 2 } 'x' 3).2.1 (by decide),
    (claim_C9 { compose := "abc", cursor_pos := 2 } 'c' 0).2.2.2.2.1 (by decide),
    (claim_C9 { compose := "abc", cursor_pos := 1 } 'c' 0).2.2.2.2.2.1 (by decide),
    (claim_C9 { compose := "abc", cursor_pos := 0 } 'c' 0).2.2.2.2.2.2.1,
    (claim_C9 { compose := "abc", cursor_pos := 3 } 'c' 0).2.2.2.2.2.2.2.2.1⟩

/-- Claim C1, counterexample: in the welcome buffer built at startup, the
single column resolves to width 4, yet the first row renders the 6-character
cell line 1 - the justify functions pad but never truncate, so the formatted
text is longer than the resolved width. -/
theorem claim_C1_cex :
    resolve_cell welcome_schema welcome_row1 ("body") =
      .ok { width := some 4, justify := Option.none, color := 0, cell := .val (.str "line 1") } ∧
    bodyCell substitute_default welcome_schema welcome_row1 ("body") = .ok ("line 1", 0) ∧
    ("line 1").length ≠ 4 ∧
    welcome_rows.head? = some welcome_row1 ∧
    (renew substitute_default welcome_buffer).map (fun s => s.lines.head?) =
      .ok (some [("line 1", 0)]) := by
  exact ⟨rfl, rfl, by decide, rfl, rfl⟩

/-- Claim C1, amended: justification to the resolved width is the last
formatting step and pads without truncating, so a formatted body cell whose
(possibly override-replaced, possibly None-blanked) text is a string of
length L in a column of resolved width W has length exactly max W L - equal
to the resolved width whenever the text fits it, and longer otherwise. -/
theorem claim_C1 :
    (∀ j s w out, justifyRow j (.val (.str s)) (some w) = .ok out →
      out.length = max w s.length) ∧
    (∀ sub sch row col t c r w, bodyCell sub sch row col = .ok (t, c) →
      resolve_cell sch row col = .ok r → r.width = some w → w ≤ t.length) := by
  refine ⟨fun j s w out h => justifyRow_str_length j s w out h, ?_⟩
  intro sub sch row col t c r w hb hr hw
  unfold bodyCell at hb
  rw [hr] at hb
  dsimp only at hb
  cases hsub : sub row col (Row.val (.str (Row.toPyStr r.cell)), r.color) with
  | error e =>
    rw [hsub] at hb
    cases hb
  | ok p =>
    rw [hsub] at hb
    obtain ⟨t0, colorOut⟩ := p
    dsimp only at hb
    cases hj : justifyRow (r.justify.getD .ljust)
        (if r.cell = .val .none then Row.val (.str "") else t0) r.width with
    | error e =>
      rw [hj] at hb
      cases hb
    | ok text =>
      rw [hj] at hb
      injection hb with h1
      rw [hw] at hj
      have h2 := justifyRow_width_le _ _ _ _ hj
      have h3 : text = t := congrArg Prod.fst h1
      rw [h3] at h2
      exact h2

/-- Claim C1, witness: a left justify of a two-character string to width 5
has length 5, and the welcome-buffer cell of the counterexample is bounded
below by its resolved width 4. -/
theorem claim_C1_witness :
    (pyLjust ("ab") 5).length = max 5 ("ab" : String).length ∧
    4 ≤ ("line 1" : String).length := by
  exact ⟨claim_C1.1 .ljust ("ab") 5 (pyLjust ("ab") 5) rfl,
    claim_C1.2 substitute_default welcome_schema welcome_row1 ("body") ("line 1") 0
      { width := some 4, justify := Option.none, color := 0, cell := .val (.str "line 1") } 4
      rfl rfl rfl⟩

/-- Claim C3: inheritance precedence - with an ancestor default width 5 over
an interior default width 9 and a widthless leaf, resolution yields 5; with
the ancestor width unset it yields 9; a leaf declaring colour 7 under
ancestors declaring colour 3 resolves to 7; a leaf with no display name
inherits the ancestor name for its header; and in general a truthy
already-accumulated slot survives deeper defaults while an unset slot takes
the deeper default. -/
theorem claim_C3 :
    resolve_cell prec_schema_anc prec_row ("mid/leafy") =
      .ok { width := some 5, justify := Option.none, color := 0, cell := .val (.str "v") } ∧
    resolve_cell prec_schema_mid prec_row ("mid/leafy") =
      .ok { width := some 9, justify := Option.none, color := 0, cell := .val (.str "v") } ∧
    resolve_cell prec_schema_leaf prec_row ("mid/leafy") =
      .ok { width := some 2, justify := Option.none, color := 7, cell := .val (.str "v") } ∧
    headerCell board_schema ("arrival_scheduled/short") = .ok ("arriv", 0) ∧
    (∀ acc defs : Attrs, ∀ w, acc.width = some w → w ≠ 0 →
      (mergeDefaults acc defs).width = some w) ∧
    (∀ acc defs : Attrs, acc.width = Option.none →
      (mergeDefaults acc defs).width = defs.width) := by
  refine ⟨rfl, rfl, rfl, rfl, fun acc defs w h hw => ?_, fun acc defs h => ?_⟩
  · simp only [mergeDefaults, pyOrNat, h]
    rw [if_neg hw]
  · simp only [mergeDefaults, pyOrNat, h]

/-- Claim C3, witness: the accumulation step keeps the ancestor width 5 over
a deeper default 9, and takes 9 when nothing was accumulated. -/
theorem claim_C3_witness :
    (mergeDefaults { width := some 5 } { width := some 9 }).width = some 5 ∧
    (mergeDefaults {} { width := some 9 }).width = some 9 := by
  exact ⟨claim_C3.2.2.2.2.1 { width := some 5 } { width := some 9 } 5 rfl (by decide),
    claim_C3.2.2.2.2.2 {} { width := some 9 } rfl⟩

/-- Claim C6, counterexample: the end-to-end scenario row (actual departure
recorded, departure variation status L, variation 1) renders the current
variation cell as 1L right-justified to width 3 - but in colour pair 5, the
colour the source initialises as body de-emphasis, not in the live-data
colour pair 3 that the signalling-id and platform rules use. -/
theorem claim_C6_cex :
    bodyCell board_substitute_fn board_schema scenario_row ("service/current_variation") =
      .ok (" 1L", deemphasis_color) ∧
    deemphasis_color ≠ live_data_color := by
  exact ⟨rfl, by decide⟩

/-- Claim C6, amended: once an actual arrival or departure is recorded the
override shows variation then status from the departure movement when it has
a variation status, else from the arrival movement, right-justified to width
3, in colour 5 (the de-emphasis grey, not the live-data colour 3); an
off-route status yields empty text in colour 5; and with no actual time the
board hook falls through, so the raw current_variation field renders in the
leaf colour 3 rather than being suppressed. -/
theorem claim_C6 :
    board_substitute_fn scenario_row ("service/current_variation") (.val (.str "1"), 3) =
      .ok (.val (.str "1L"), 5) ∧
    bodyCell board_substitute_fn board_schema scenario_row ("service/current_variation") =
      .ok (" 1L", 5) ∧
    bodyCell board_substitute_fn board_schema scenario_row_arr ("service/current_variation") =
      .ok (" 2E", 5) ∧
    bodyCell board_substitute_fn board_schema scenario_row_off ("service/current_variation") =
      .ok ("   ", 5) ∧
    bodyCell board_substitute_fn board_schema scenario_row_sched ("service/current_variation") =
      .ok ("  1", 3) ∧
    deemphasis_color = 5 ∧ live_data_color = 3 := by
  exact ⟨rfl, rfl, rfl, rfl, rfl, rfl, rfl⟩

/-- Claim C7, counterexample: a leaf that never receives a width makes renew
raise TypeError, an unresolvable display path makes it raise KeyError (there
is no SchemaError), and the error propagates uncaught through
consider_refresh - the timed-refresh path of the main loop - rather than
being confined to the view. -/
theorem claim_C7_cex :
    renew substitute_default bad_width_buffer = .error .typeError ∧
    renew substitute_default bad_path_buffer = .error .keyError ∧
    consider_refresh (board_refresh 0 120 ("CDF") bad_board_data) bad_board_buffer 31000000 =
      .error .typeError := by
  exact ⟨rfl, rfl, rfl⟩

/-- Claim C7, amended: a display path that fails to resolve raises KeyError
and a leaf without a width raises TypeError; the repository defines no
SchemaError and installs no handler, so consider_refresh propagates whatever
error the refresh raises and the failure aborts the loop instead of being
fatal to the current view only. -/
theorem claim_C7 :
    (∀ refreshFn (st : BufState) (now : Nat) e,
      tdSeconds (now - st.last_refreshed) > 30 →
      refreshFn { st with last_refreshed := now } = .error e →
      consider_refresh refreshFn st now = .error e) ∧
    renew substitute_default bad_width_buffer = .error .typeError ∧
    renew substitute_default bad_path_buffer = .error .keyError := by
  refine ⟨fun refreshFn st now e h1 h2 => ?_, rfl, rfl⟩
  unfold consider_refresh
  rw [if_pos h1]
  exact h2

/-- Claim C7, witness: forty seconds after a stale instant, the timed refresh
of a board view whose dataset omits a width aborts with the propagated
TypeError. -/
theorem claim_C7_witness :
    consider_refresh (board_refresh 0 120 ("CDF") bad_board_data) bad_board_buffer 40000000 =
      .error .typeError := by
  exact claim_C7.1 (board_refresh 0 120 ("CDF") bad_board_data) bad_board_buffer 40000000
    .typeError (by decide) rfl

/-- Claim C5, counterexample: the compose line uid W12345 - recognised by its
uid prefix but lacking the date field - is not silently discarded: the
submit handler raises an uncaught IndexError, so no state is cleared and no
view replaced. -/
theorem claim_C5_cex :
    handleEnter { compose := "uid W12345", cursor_pos := 10, text_entry_mode := true,
                  active := .initial } 0 = .error .indexError := by
  exact rfl

/-- Claim C5, amended: case-insensitively, a compose line starting with
trjd-space builds a board view anchored 10 minutes before now with a 120
minute window at the uppercased second field; one starting with uid-space
and carrying a third field that parses as an ISO date builds a service view
for the uppercased identifier on that date; one starting with uid-space
whose third field is missing raises an uncaught IndexError; any other
compose line is silently discarded. Whenever no exception is raised the
compose line is cleared, the cursor reset to 0, entry mode left, and the
active buffer replaced exactly when a view was constructed. -/
theorem claim_C5 :
    (∀ (st : EditorState) (now : Nat) crs,
      pyStartsWith (pyLower st.compose) ("trjd ") = true →
      listIdx (pySplit ' ' st.compose) 1 = .ok crs →
      handleEnter st now = .ok { compose := "", cursor_pos := 0, text_entry_mode := false,
                                 active := .spec (.board ((now : Int) - 10 * 60 * 1000000) 120 (pyUpper crs)) }) ∧
    (∀ (st : EditorState) (now : Nat) uid ds d,
      pyStartsWith (pyLower st.compose) ("trjd ") = false →
      pyStartsWith (pyLower st.compose) ("uid ") = true →
      listIdx (pySplit ' ' st.compose) 1 = .ok uid →
      listIdx (pySplit ' ' st.compose) 2 = .ok ds →
      strptime_ymd ds = .ok d →
      handleEnter st now = .ok { compose := "", cursor_pos := 0, text_entry_mode := false,
                                 active := .spec (.service d (pyUpper uid)) }) ∧
    (∀ (st : EditorState) (now : Nat) uid e,
      pyStartsWith (pyLower st.compose) ("trjd ") = false →
      pyStartsWith (pyLower st.compose) ("uid ") = true →
      listIdx (pySplit ' ' st.compose) 1 = .ok uid →
      listIdx (pySplit ' ' st.compose) 2 = .error e →
      handleEnter st now = .error e) ∧
    (∀ (st : EditorState) (now : Nat),
      pyStartsWith (pyLower st.compose) ("trjd ") = false →
      pyStartsWith (pyLower st.compose) ("uid ") = false →
      handleEnter st now = .ok { compose := "", cursor_pos := 0, text_entry_mode := false,
                                 active := st.active }) := by
  refine ⟨fun st now crs h1 h2 => ?_, fun st now uid ds d h1 h2 h3 h4 h5 => ?_,
    fun st now uid e h1 h2 h3 h4 => ?_, fun st now h1 h2 => ?_⟩
  · simp [handleEnter, submit_compose, h1, h2]
  · simp [handleEnter, submit_compose, h1, h2, h3, h4, h5]
  · simp [handleEnter, submit_compose, h1, h2, h3, h4]
  · simp [handleEnter, submit_compose, h1, h2]

/-- Claim C5, witness: TRJD cdf builds the CDF board view 10 minutes back;
uid w12345 2024-03-01 builds the W12345 service view on that date; banana
leaves the active buffer untouched while still clearing the editor. -/
theorem claim_C5_witness :
    handleEnter { compose := "TRJD cdf", cursor_pos := 8, text_entry_mode := true,
                  active := .initial } 1000000000 =
      .ok { compose := "", cursor_pos := 0, text_entry_mode := false,
            active := .spec (.board ((1000000000 : Int) - 10 * 60 * 1000000) 120 (pyUpper ("cdf"))) } ∧
    handleEnter { compose := "uid w12345 2024-03-01", cursor_pos := 0, text_entry_mode := true,
                  active := .initial } 0 =
      .ok { compose := "", cursor_pos := 0, text_entry_mode := false,
            active := .spec (.service { year := 2024, month := 3, day := 1 } (pyUpper ("w12345"))) } ∧
    handleEnter { compose := "banana", cursor_pos := 3, text_entry_mode := true,
                  active := .initial } 0 =
      .ok { compose := "", cursor_pos := 0, text_entry_mode := false, active := .initial } := by
  exact ⟨claim_C5.1 { compose := "TRJD cdf", cursor_pos := 8, text_entry_mode := true,
                      active := .initial } 1000000000 ("cdf") rfl rfl,
    claim_C5.2.1 { compose := "uid w12345 2024-03-01", cursor_pos := 0, text_entry_mode := true,
                   active := .initial } 0 ("w12345") ("2024-03-01") { year := 2024, month := 3, day := 1 }
      rfl rfl rfl rfl rfl,
    claim_C5.2.2.2 { compose := "banana", cursor_pos := 3, text_entry_mode := true,
                     active := .initial } 0 rfl rfl⟩

/-- Claim C10: renew - also when reached through a board refresh - never
modifies the scroll offset, dataset pointer fields or timestamps of the
state it was given; it only replaces the cached header cells and body lines
and sets both dirty flags. Consequently, renewing the shrink fixture (offset
5, two-row dataset) leaves the offset at 5 beyond the 2 cached lines, until
a later scroll re-clamps it to 2. -/
theorem claim_C10 :
    (∀ sub st st', renew sub st = .ok st' →
      st'.line_offset = st.line_offset ∧ st'.title = st.title ∧ st'.data = st.data ∧
      st'.format = st.format ∧ st'.last_refreshed = st.last_refreshed ∧
      st'.headers_outstanding = true ∧ st'.body_outstanding = true) ∧
    (∀ dt dur loc q st st', board_refresh dt dur loc q st = .ok st' →
      st'.line_offset = st.line_offset) ∧
    renew substitute_default shrink_buffer = .ok shrink_renewed ∧
    shrink_renewed.line_offset = 5 ∧
    shrink_renewed.lines.length = 2 ∧
    (scroll_down shrink_renewed 1).line_offset = 2 := by
  refine ⟨fun sub st st' h => ?_, fun dt dur loc q st st' h => ?_, rfl, rfl, rfl, rfl⟩
  · obtain ⟨cols, ls, rfl⟩ := renew_ok_shape sub st st' h
    exact ⟨rfl, rfl, rfl, rfl, rfl, rfl, rfl⟩
  · unfold board_refresh at h
    obtain ⟨cols, ls, rfl⟩ := renew_ok_shape _ _ _ h
    rfl

/-- Claim C10, witness: the renewed shrink buffer keeps offset, title,
dataset, format and timestamp while both dirty flags are set, and a board
refresh of the welcome buffer keeps its offset. -/
theorem claim_C10_witness :
    (shrink_renewed.line_offset = shrink_buffer.line_offset ∧
      shrink_renewed.title = shrink_buffer.title ∧
      shrink_renewed.data = shrink_buffer.data ∧
      shrink_renewed.format = shrink_buffer.format ∧
      shrink_renewed.last_refreshed = shrink_buffer.last_refreshed ∧
      shrink_renewed.headers_outstanding = true ∧
      shrink_renewed.body_outstanding = true) ∧
    board_refresh_demo.line_offset = welcome_buffer.line_offset := by
  exact ⟨claim_C10.1 substitute_default shrink_buffer shrink_renewed rfl,
    claim_C10.2.1 0 120 ("CDF") { schema := welcome_schema, data := [welcome_row1] }
      welcome_buffer board_refresh_demo rfl⟩
